import Mathlib

/-!
Shallow embedding of `readthedocs/api/v3/views.py` (Django REST Framework
viewsets of the Read the Docs APIv3) and proofs about the request handlers
defined there.

Conventions used throughout:

* Python exceptions are modelled with `Except PyExn`; a handler that can
  raise returns `Except PyExn Response`.
* Django model instances are plain Lean structures; a table is a
  `List` of instances, and saving appends to the list.
* Python dicts holding validated serializer data are structures whose
  client-settable relation fields are `Option`-valued (a key may be absent).
* Collaborators that live outside this file in the repository
  (`trigger_build`, `finish_import_project`, the queryset mixins) are taken
  as parameters or are modelled from their specified contract; each such
  definition says so in its doc comment.
-/

set_option autoImplicit false

/-- Exceptions a handler can raise, as far as the embedded code distinguishes
them: `attributeError` for attribute access on `None`, `validationError` for
serializer validation failure (`is_valid(raise_exception=True)`), and
`generic` for anything raised by an external collaborator. -/
inductive PyExn where
  | attributeError
  | validationError
  | generic (msg : String)
deriving DecidableEq, Repr

/-- rest_framework.status.HTTP_200_OK -/
def HTTP_200_OK : Nat := 200

/-- rest_framework.status.HTTP_201_CREATED. -/
def HTTP_201_CREATED : Nat := 201

/-- rest_framework.status.HTTP_202_ACCEPTED. -/
def HTTP_202_ACCEPTED : Nat := 202

/-- rest_framework.status.HTTP_400_BAD_REQUEST. -/
def HTTP_400_BAD_REQUEST : Nat := 400

/-- rest_framework.status.HTTP_404_NOT_FOUND. -/
def HTTP_404_NOT_FOUND : Nat := 404

/-- A `readthedocs.projects.models.Project`, restricted to the fields the
handlers in `views.py` inspect: its slug, whether its privacy level makes it
publicly visible, and the ids of the users who administer it. -/
structure Project where
  slug : String
  public : Bool
  admins : List Nat
deriving DecidableEq, Repr

/-- A `readthedocs.builds.models.Version`: its slug, the `active` flag whose
mutation drives the post-save reconciliation hook, and the `hidden` flag
(the other field exposed by `VersionUpdateSerializer`). -/
structure Version where
  slug : String
  active : Bool
  hidden : Bool
deriving DecidableEq, Repr

/-- A `readthedocs.builds.models.Build`: its primary key and the `Version`
it belongs to (accessed as `build.version` in `BuildsCreateViewSet.create`). -/
structure Build where
  id : Nat
  version : Version
deriving DecidableEq, Repr

/-- The response dict built by `BuildsCreateViewSet.create`:
`{"build": ..., "project": ..., "version": ..., "triggered": ...}`.
The build payload is `Option Build` because `BuildSerializer(None).data`
renders the serializer's initial (empty) data rather than raising. -/
structure TriggerData where
  build : Option Build
  project : Project
  version : Version
  triggered : Bool
deriving DecidableEq, Repr

/-- A `rest_framework.response.Response` carrying the trigger data dict and
an HTTP status code. -/
structure TriggerResponse where
  data : TriggerData
  status : Nat
deriving DecidableEq, Repr

/-- Evaluation of `VersionSerializer(build.version).data` inside the dict
literal of `BuildsCreateViewSet.create`: attribute access `build.version`
raises `AttributeError` when `build` is `None`. -/
def serialize_build_version : Option Build → Except PyExn Version
  | none => Except.error PyExn.attributeError
  | some b => Except.ok b.version

/-- `BuildsCreateViewSet.create` (views.py lines 369-389). The Build Trigger
Gateway `trigger_build(project, version=version)` is out of scope for this
file; per its contract it returns a pair whose first component is whether the
trigger was accepted and whose second is the created `Build` or `None`, so
the handler is a function of that pair. The handler unpacks
`_, build = trigger_build(...)` (the first component is discarded), builds
the response dict (whose `"version"` entry dereferences `build.version`),
then branches on the truthiness of `build` to pick `triggered` and the
status code. The handler itself persists nothing: any `Build` row is created
by the gateway, never here. -/
def buildsCreateViewSet_create (project : Project) (gw : Bool × Option Build) :
    Except PyExn TriggerResponse :=
  let build := gw.2
  match serialize_build_version build with
  | Except.error e => Except.error e
  | Except.ok v =>
      if build.isSome then
        Except.ok
          { data := { build := build, project := project, version := v, triggered := true },
            status := HTTP_202_ACCEPTED }
      else
        Except.ok
          { data := { build := build, project := project, version := v, triggered := false },
            status := HTTP_400_BAD_REQUEST }

/-- Validated data of `VersionUpdateSerializer`: the two client-settable
fields, each optional because a PATCH body may omit either. -/
structure VersionUpdateData where
  active : Option Bool
  hidden : Option Bool
deriving DecidableEq, Repr

/-- Effect of `super().update(request, ...)` on the stored version: the
framework's update mixin validates the body and saves the validated fields
onto the instance, leaving omitted fields unchanged. -/
def apply_version_update (v : Version) (u : VersionUpdateData) : Version :=
  { v with
    active := u.active.getD v.active,
    hidden := u.hidden.getD v.hidden }

/-- The arguments of the call `version.post_save(was_active=was_active)`:
the keyword argument and the instance it is invoked on. -/
structure PostSaveCall where
  was_active : Bool
  version : Version
deriving DecidableEq, Repr

/-- `VersionsViewSet.update` (views.py lines 332-341). `self.get_object()`
reads the stored row, `was_active` snapshots its `active` flag, the
framework update is applied, `self.get_object()` re-reads the now-updated
row, and `post_save(was_active=was_active)` is invoked on it. Returns the
updated stored row together with the `post_save` call that was made. -/
def versionsViewSet_update (stored : Version) (u : VersionUpdateData) :
    Version × PostSaveCall :=
  let version := stored
  let was_active := version.active
  let stored' := apply_version_update stored u
  let version' := stored'
  (stored', { was_active := was_active, version := version' })

/-- The table of persisted projects. -/
abbrev ProjectTable := List Project

/-- The framework's `perform_create` (reached via `super().perform_create`
from `ProjectsViewSetBase.perform_create`): saves the validated instance
into the table and returns it. Each save commits on its own; nothing in
`views.py` opens a transaction spanning the save and the import hook. -/
def perform_create_save (db : ProjectTable) (p : Project) : ProjectTable × Project :=
  (db ++ [p], p)

/-- `ProjectsViewSetBase.perform_create` (views.py lines 198-206): saves the
project, then calls `self.finish_import_project(self.request, project)`.
The hook lives in `ProjectImportMixin`, outside this file, so it is a
parameter that may raise; `perform_create` wraps it in no `try`/`except`,
so its outcome is returned as-is next to the already-committed table. -/
def projectsViewSetBase_perform_create (db : ProjectTable) (p : Project)
    (finish_import_project : Project → Except PyExn Unit) :
    ProjectTable × Except PyExn Unit :=
  let saved := perform_create_save db p
  (saved.1, finish_import_project saved.2)

/-- Response of a successful project-import create: status code and the slug
of the project serialized with the full `ProjectSerializer`. -/
structure CreateResponse where
  status : Nat
  slug : String
deriving DecidableEq, Repr

/-- `ProjectsViewSetBase.create` (views.py lines 180-196). `validated` is
the outcome of `serializer.is_valid(raise_exception=True)`: `none` raises
`ValidationError` before anything is persisted. Otherwise
`self.perform_create(serializer)` runs; an exception it raises propagates
out of `create` (there is no handler), while the table keeps the committed
row. On success the project is re-serialized with `ProjectSerializer` and
returned with status 201. -/
def projectsViewSetBase_create (db : ProjectTable) (validated : Option Project)
    (finish_import_project : Project → Except PyExn Unit) :
    ProjectTable × Except PyExn CreateResponse :=
  match validated with
  | none => (db, Except.error PyExn.validationError)
  | some p =>
      let r := projectsViewSetBase_perform_create db p finish_import_project
      match r.2 with
      | Except.error e => (r.1, Except.error e)
      | Except.ok _ => (r.1, Except.ok { status := HTTP_201_CREATED, slug := p.slug })

/-- Validated data of `RedirectCreateSerializer` as a dict: the redirect
fields plus an optional `project` key, present when the client submitted a
`project` field in the body (dicts carry whatever validated keys exist). -/
structure RedirectValidatedData where
  from_url : String
  to_url : String
  redirect_kind : String
  project : Option String
deriving DecidableEq, Repr

/-- A persisted `readthedocs.redirects.models.Redirect`; `project` holds the
slug of the owning project. -/
structure Redirect where
  from_url : String
  to_url : String
  redirect_kind : String
  project : String
deriving DecidableEq, Repr

/-- `RedirectsViewSet.perform_create` (views.py lines 495-502):
`serializer.validated_data.update({"project": self._get_parent_project()})`
overwrites any `project` key already in the dict, then `serializer.save()`
persists the instance from the validated data. `save` needs the `project`
key to be present, so it is `Option`-valued here; after the `update` it
always is. -/
def redirectsViewSet_perform_create (vd : RedirectValidatedData)
    (parent_project : String) : Option Redirect :=
  let vd' := { vd with project := some parent_project }
  vd'.project.map fun pr =>
    { from_url := vd'.from_url, to_url := vd'.to_url,
      redirect_kind := vd'.redirect_kind, project := pr }

/-- Validated data of `EnvironmentVariableSerializer` as a dict: name,
value, and an optional client-submitted `project` key. -/
structure EnvironmentVariableValidatedData where
  name : String
  value : String
  project : Option String
deriving DecidableEq, Repr

/-- A persisted `readthedocs.projects.models.EnvironmentVariable`; `project`
holds the slug of the owning project. -/
structure EnvironmentVariable where
  name : String
  value : String
  project : String
deriving DecidableEq, Repr

/-- `EnvironmentVariablesViewSet.perform_create` (views.py lines 525-532):
identical shape to the redirects one — overwrite the `project` key with the
project resolved from the URL, then save. -/
def environmentVariablesViewSet_perform_create
    (vd : EnvironmentVariableValidatedData) (parent_project : String) :
    Option EnvironmentVariable :=
  let vd' := { vd with project := some parent_project }
  vd'.project.map fun pr =>
    { name := vd'.name, value := vd'.value, project := pr }

/-- Modelled from the spec: `admin_projects` of `ProjectQuerySetMixin`
(`readthedocs/api/v3/mixins.py`, not part of this file) — the projects the
given user administers. -/
def admin_projects (user : Nat) (db : ProjectTable) : ProjectTable :=
  db.filter fun p => p.admins.contains user

/-- Modelled from the spec: the base queryset produced by
`ProjectQuerySetMixin.get_queryset` (`readthedocs/api/v3/mixins.py`, not
part of this file) — the maximal set of projects the caller may observe:
public projects plus the ones they administer. -/
def project_api_queryset (user : Nat) (db : ProjectTable) : ProjectTable :=
  db.filter fun p => p.public || p.admins.contains user

/-- `ProjectsViewSetBase.get_queryset` (views.py lines 162-178): when the
view is the top-level `projects` basename handling the `list` action it
returns `self.admin_projects(self.request.user)`; otherwise it returns the
mixin queryset (the `prefetch_related` call only preloads relations and
does not change which rows are returned). -/
def projectsViewSetBase_get_queryset (basename action : String) (user : Nat)
    (db : ProjectTable) : ProjectTable :=
  if basename == "projects" && action == "list" then
    admin_projects user db
  else
    project_api_queryset user db

/-- The framework's `get_object` for a slug-keyed viewset: look the slug up
in the queryset; `none` means the generic handler raises `Http404`. -/
def get_object_by_slug (queryset : ProjectTable) (slug : String) : Option Project :=
  queryset.find? fun p => p.slug == slug

/-- The serializer classes named by the two `get_serializer_class`
implementations under study. -/
inductive SerializerClass where
  | ProjectSerializer
  | ProjectCreateSerializer
  | ProjectUpdateSerializer
  | VersionSerializer
  | VersionUpdateSerializer
deriving DecidableEq, Repr

/-- `ProjectsViewSetBase.get_serializer_class` (views.py lines 144-160).
Action names are the strings DRF stores in `self.action`. None of the
branches matches for any other action, so the Python function falls off the
end and implicitly returns `None`, hence the `Option`. -/
def projectsViewSetBase_get_serializer_class (action : String) :
    Option SerializerClass :=
  if action == "list" || action == "retrieve" || action == "superproject" then
    some SerializerClass.ProjectSerializer
  else if action == "create" then
    some SerializerClass.ProjectCreateSerializer
  else if action == "update" || action == "partial_update" then
    some SerializerClass.ProjectUpdateSerializer
  else
    none

/-- `VersionsViewSet.get_serializer_class` (views.py lines 321-330): the
read serializer for `list`/`retrieve`, and `VersionUpdateSerializer` for
every other action, unconditionally. -/
def versionsViewSet_get_serializer_class (action : String) : SerializerClass :=
  if action == "list" || action == "retrieve" then
    SerializerClass.VersionSerializer
  else
    SerializerClass.VersionUpdateSerializer

/-- The actions actually routed to `ProjectsViewSetBase`, read off its mixin
composition (views.py lines 115-126): `ReadOnlyModelViewSet` provides
`list` and `retrieve`, `CreateModelMixin` provides `create`,
`UpdateModelMixin` provides `update` and `partial_update`, and the
`@action` decorator adds `superproject` (line 208). -/
def projectsRoutedActions : List String :=
  ["list", "retrieve", "create", "update", "partial_update", "superproject"]

/-- The actions actually routed to `VersionsViewSet`, read off its mixin
composition (views.py lines 298-306): `ReadOnlyModelViewSet` provides
`list` and `retrieve`, and `UpdateModelMixin` provides `update` and
`partial_update`. -/
def versionsRoutedActions : List String :=
  ["list", "retrieve", "update", "partial_update"]

/-- A `readthedocs.projects.models.ProjectRelationship` as used by the
`superproject` action: only its `parent` end is read. -/
structure ProjectRelationship where
  parent : Project
deriving DecidableEq, Repr

/-- Evaluation of `project.superprojects.first().parent`:
`.first()` on the relationship queryset yields the head row or `None`, and
`.parent` on `None` raises `AttributeError`. -/
def superprojects_first_parent (superprojects : List ProjectRelationship) :
    Except PyExn Project :=
  match superprojects.head? with
  | none => Except.error PyExn.attributeError
  | some rel => Except.ok rel.parent

/-- A response as returned by the `superproject` action: a status code and,
on success, the serialized superproject. -/
structure SuperprojectResponse where
  status : Nat
  body : Option String
deriving DecidableEq, Repr

/-- `ProjectsViewSetBase.superproject` (views.py lines 208-217). The whole
body — relationship lookup and serialization both — sits inside
`try: ... except Exception: return Response(status=404)`, so any raised
exception is turned into a 404 response; on success `Response(data)`
defaults to status 200. `serialize` stands for `self.get_serializer(...).data`,
which may itself raise. -/
def projectsViewSetBase_superproject (superprojects : List ProjectRelationship)
    (serialize : Project → Except PyExn String) : SuperprojectResponse :=
  match superprojects_first_parent superprojects with
  | Except.error _ => { status := HTTP_404_NOT_FOUND, body := none }
  | Except.ok sp =>
      match serialize sp with
      | Except.error _ => { status := HTTP_404_NOT_FOUND, body := none }
      | Except.ok data => { status := HTTP_200_OK, body := some data }

/-- The model classes a `Notification` can be attached to through its
`attached_to` generic relation (`attached_to_content_type`). -/
inductive ContentKind where
  | user
  | project
  | build
  | organization
deriving DecidableEq, Repr

/-- A `readthedocs.notifications.models.Notification`: primary key plus the
polymorphic attachment pair (declared target type, target id). -/
structure Notification where
  pk : Nat
  attached_to_content_type : ContentKind
  attached_to_id : Nat
deriving DecidableEq, Repr

/-- `NotificationsUserViewSet.get_queryset` (views.py lines 611-618):
filter the notification table to rows whose `attached_to_content_type` is
the `User` content type and whose `attached_to_id` is the requesting user's
pk. -/
def notificationsUserViewSet_get_queryset (db : List Notification)
    (request_user_pk : Nat) : List Notification :=
  db.filter fun n =>
    n.attached_to_content_type == ContentKind.user
      && n.attached_to_id == request_user_pk

/-- The actions provided by `UsersViewSet` (views.py lines 579-591): it
mixes in only `GenericViewSet`, which implements no handler methods, so the
router binds no action to it. -/
def usersViewSet_actions : List String := []

/-- The class queryset of `UsersViewSet`: `User.objects.none()`, the empty
queryset (rows stand for user pks). -/
def usersViewSet_queryset : List Nat := []

/-- The actions provided by `OrganizationsViewSetBase` (views.py lines
621-634): again only `GenericViewSet`, so none. -/
def organizationsViewSetBase_actions : List String := []

/-- The class queryset of `OrganizationsViewSetBase`:
`Organization.objects.none()`, the empty queryset (rows stand for
organization pks). -/
def organizationsViewSetBase_queryset : List Nat := []

/-- Router and dispatch behavior of the framework for a pk-keyed viewset
described by its provided actions and its queryset: a request for an action
the viewset does not provide has no route and resolves to 404; a routed
`list` returns 200 (an empty queryset lists as an empty page); a routed
`retrieve` runs `get_object`, returning 200 when the pk is in the queryset
and raising `Http404` (404) otherwise. Returns the response status. -/
def viewset_dispatch (provided : List String) (queryset : List Nat)
    (action : String) (pk : Nat) : Nat :=
  if provided.contains action then
    if action == "retrieve" then
      if queryset.contains pk then HTTP_200_OK else HTTP_404_NOT_FOUND
    else
      HTTP_200_OK
  else
    HTTP_404_NOT_FOUND

/-- A sample version for exercising the handlers on concrete inputs. -/
def demoVersion : Version := { slug := "latest", active := true, hidden := false }

/-- A sample public project administered by user 1. -/
def demoProject : Project := { slug := "docs", public := true, admins := [1] }

/-- A sample build of `demoVersion`. -/
def demoBuild : Build := { id := 7, version := demoVersion }

/-- The response `BuildsCreateViewSet.create` produces when the gateway
returns `demoBuild`. -/
def demoTriggerResponse : TriggerResponse :=
  { data := { build := some demoBuild, project := demoProject,
              version := demoVersion, triggered := true },
    status := HTTP_202_ACCEPTED }

/-- A finish-import hook that raises, for exercising the create path. -/
def demoFailingHook : Project → Except PyExn Unit :=
  fun _ => Except.error (PyExn.generic "boom")

/-- A sample notification attached to user 1. -/
def demoUserNotification : Notification :=
  { pk := 4, attached_to_content_type := ContentKind.user, attached_to_id := 1 }

/-- A sample notification attached to a build, with `attached_to_id = 1`. -/
def demoBuildNotification : Notification :=
  { pk := 5, attached_to_content_type := ContentKind.build, attached_to_id := 1 }

/-- C1: evaluation of `BuildsCreateViewSet.create` on both gateway outcomes.
When the gateway accepts (returns a build), the handler responds 202 with
the serialized build, project and version and `triggered = true`, as the
claim states. But when the gateway declines (returns no build), the handler
raises `AttributeError` while dereferencing `build.version` in the response
dict, so the claimed 400 / `triggered: false` response is never produced:
the `else` branch that would produce it is unreachable. -/
theorem C1_build_trigger_response_eval :
    (∀ (p : Project) (accepted : Bool) (b : Build),
        buildsCreateViewSet_create p (accepted, some b) =
          Except.ok
            { data := { build := some b, project := p, version := b.version,
                        triggered := true },
              status := HTTP_202_ACCEPTED })
      ∧ (∀ (p : Project) (accepted : Bool),
          buildsCreateViewSet_create p (accepted, none) =
            Except.error PyExn.attributeError) := by
  constructor
  · intro p accepted b
    rfl
  · intro p accepted
    rfl

/-- C9: the build-trigger handler discards the first component of the
gateway's return value (its response is the same for either value of it),
and among the responses it does produce, `triggered` and the choice between
202 and 400 are functions of the truthiness of the second component alone. -/
theorem C9_trigger_gateway_first_component_discarded :
    (∀ (p : Project) (a a' : Bool) (b : Option Build),
        buildsCreateViewSet_create p (a, b) = buildsCreateViewSet_create p (a', b))
      ∧ (∀ (p : Project) (a : Bool) (b : Option Build) (r : TriggerResponse),
          buildsCreateViewSet_create p (a, b) = Except.ok r →
            r.data.triggered = b.isSome
              ∧ (r.status = HTTP_202_ACCEPTED ↔ b.isSome = true)
              ∧ (r.status = HTTP_400_BAD_REQUEST ↔ b.isSome = false)) := by
  constructor
  · intro p a a' b
    rfl
  · intro p a b r h
    cases b with
    | none =>
        simp [buildsCreateViewSet_create, serialize_build_version] at h
    | some bb =>
        simp [buildsCreateViewSet_create, serialize_build_version] at h
        subst h
        simp [HTTP_202_ACCEPTED, HTTP_400_BAD_REQUEST]

/-- C9 witness: the determination facts instantiated at a concrete accepted
trigger. -/
theorem C9_trigger_gateway_first_component_discarded_witness :
    demoTriggerResponse.data.triggered = (some demoBuild).isSome
      ∧ (demoTriggerResponse.status = HTTP_202_ACCEPTED ↔ (some demoBuild).isSome = true)
      ∧ (demoTriggerResponse.status = HTTP_400_BAD_REQUEST ↔ (some demoBuild).isSome = false) :=
  C9_trigger_gateway_first_component_discarded.2 demoProject false (some demoBuild)
    demoTriggerResponse rfl

/-- C2: `VersionsViewSet.update` snapshots `active` before the write and
hands the hook the pre-update value next to the reloaded, updated instance;
in particular an active → inactive update makes the hook observe
`was_active = true` on an instance whose `active` is now `false`. -/
theorem C2_version_update_hook_sees_old_active :
    (∀ (stored : Version) (u : VersionUpdateData),
        (versionsViewSet_update stored u).2.was_active = stored.active
          ∧ (versionsViewSet_update stored u).2.version = apply_version_update stored u
          ∧ (versionsViewSet_update stored u).1 = apply_version_update stored u)
      ∧ (∀ (stored : Version) (u : VersionUpdateData),
          stored.active = true → u.active = some false →
            (versionsViewSet_update stored u).2.was_active = true
              ∧ (versionsViewSet_update stored u).2.version.active = false) := by
  constructor
  · intro stored u
    exact ⟨rfl, rfl, rfl⟩
  · intro stored u hact hupd
    refine ⟨hact, ?_⟩
    simp [versionsViewSet_update, apply_version_update, hupd]

/-- C2 witness: a concrete active → inactive update. -/
theorem C2_version_update_hook_sees_old_active_witness :
    (versionsViewSet_update demoVersion
          { active := some false, hidden := none }).2.was_active = true
      ∧ (versionsViewSet_update demoVersion
          { active := some false, hidden := none }).2.version.active = false :=
  C2_version_update_hook_sees_old_active.2 demoVersion
    { active := some false, hidden := none } rfl rfl

/-- C3 counterexample: a project-import create whose validation and
persistence succeed but whose finish-import hook raises. The project row is
committed (not rolled back), yet the handler's outcome is the propagated
hook exception — not the claimed 201 response. -/
theorem C3_counterexample_hook_failure_propagates :
    (projectsViewSetBase_create [] (some demoProject) demoFailingHook).2
        = Except.error (PyExn.generic "boom")
      ∧ (projectsViewSetBase_create [] (some demoProject) demoFailingHook).1
        = [demoProject]
      ∧ (projectsViewSetBase_create [] (some demoProject) demoFailingHook).2
          ≠ Except.ok { status := HTTP_201_CREATED, slug := demoProject.slug } := by
  refine ⟨rfl, rfl, ?_⟩
  intro h
  rw [show (projectsViewSetBase_create [] (some demoProject) demoFailingHook).2
        = Except.error (PyExn.generic "boom") from rfl] at h
  exact Except.noConfusion h

/-- C3 amended: when the finish-import hook raises, the already-persisted
project stays committed (creation is not transactional with the hook), but
the exception propagates out of `create` — the handler has no `try`/`except`
around the hook — so the response is the framework's error handling of that
exception, not a 201 success. -/
theorem C3_hook_failure_keeps_project_and_propagates :
    ∀ (db : ProjectTable) (p : Project) (hook : Project → Except PyExn Unit)
      (e : PyExn),
      hook p = Except.error e →
        (projectsViewSetBase_create db (some p) hook).1 = db ++ [p]
          ∧ (projectsViewSetBase_create db (some p) hook).2 = Except.error e := by
  intro db p hook e hraise
  simp [projectsViewSetBase_create, projectsViewSetBase_perform_create,
    perform_create_save, hraise]

/-- C3 witness: the amended statement at the concrete failing hook. -/
theorem C3_hook_failure_keeps_project_and_propagates_witness :
    (projectsViewSetBase_create [] (some demoProject) demoFailingHook).1
        = [] ++ [demoProject]
      ∧ (projectsViewSetBase_create [] (some demoProject) demoFailingHook).2
        = Except.error (PyExn.generic "boom") :=
  C3_hook_failure_keeps_project_and_propagates [] demoProject demoFailingHook
    (PyExn.generic "boom") rfl

/-- C4: both `perform_create` overrides set the created resource's project
to the parent resolved from the URL after validation and before the save,
so whatever `project` value the client submitted (including none at all),
the persisted row's project equals the URL parent. -/
theorem C4_parent_project_injected :
    ∀ (vdR : RedirectValidatedData) (vdE : EnvironmentVariableValidatedData)
      (parent : String),
      (redirectsViewSet_perform_create vdR parent).map Redirect.project
          = some parent
        ∧ (environmentVariablesViewSet_perform_create vdE parent).map
            EnvironmentVariable.project = some parent := by
  intro vdR vdE parent
  exact ⟨rfl, rfl⟩

/-- C5: listing at the top-level `projects` basename returns exactly the
projects the caller administers — a public project the caller does not
administer is excluded — while the `retrieve` action resolves against the
mixin queryset, so looking up a public project's slug succeeds even for a
non-admin caller. -/
theorem C5_top_level_list_is_admin_projects :
    ∀ (user : Nat) (db : ProjectTable) (p : Project),
      (p ∈ projectsViewSetBase_get_queryset "projects" "list" user db
          ↔ p ∈ db ∧ p.admins.contains user = true)
        ∧ (p ∈ db → p.public = true →
            (get_object_by_slug
                (projectsViewSetBase_get_queryset "projects" "retrieve" user db)
                p.slug).isSome = true) := by
  intro user db p
  constructor
  · simp [projectsViewSetBase_get_queryset, admin_projects, List.mem_filter]
  · intro hmem hpub
    simp only [projectsViewSetBase_get_queryset, get_object_by_slug,
      project_api_queryset]
    rw [List.find?_isSome]
    exact ⟨p, List.mem_filter.mpr ⟨hmem, by simp [hpub]⟩, by simp⟩

/-- C5 witness: user 2 administers nothing, so their top-level list excludes
the public `demoProject`, yet retrieving it by slug still resolves. -/
theorem C5_top_level_list_is_admin_projects_witness :
    (demoProject ∈ projectsViewSetBase_get_queryset "projects" "list" 2 [demoProject]
        ↔ demoProject ∈ [demoProject] ∧ demoProject.admins.contains 2 = true)
      ∧ (get_object_by_slug
          (projectsViewSetBase_get_queryset "projects" "retrieve" 2 [demoProject])
          demoProject.slug).isSome = true :=
  ⟨(C5_top_level_list_is_admin_projects 2 [demoProject] demoProject).1,
   (C5_top_level_list_is_admin_projects 2 [demoProject] demoProject).2
     (List.mem_singleton.mpr rfl) rfl⟩

/-- C6 counterexample: `destroy` is not among the actions routed to
`VersionsViewSet` and none of its explicit serializer branches matches it,
yet the resolver silently hands back `VersionUpdateSerializer` as a default
instead of failing. -/
theorem C6_counterexample_unmapped_action_defaults :
    versionsViewSet_get_serializer_class "destroy"
        = SerializerClass.VersionUpdateSerializer
      ∧ versionsRoutedActions.contains "destroy" = false := by
  exact ⟨rfl, rfl⟩

/-- C6 amended: both resolvers are total over the actions actually routed to
their viewsets. For the Projects viewset an unmapped action yields no
serializer at all (the Python function implicitly returns `None`, which
fails as soon as the framework instantiates it — no silent default); but
for the Versions viewset every action other than `list`/`retrieve`,
unmapped ones included, silently falls back to `VersionUpdateSerializer`. -/
theorem C6_serializer_resolution_totality :
    projectsRoutedActions.all
        (fun a => (projectsViewSetBase_get_serializer_class a).isSome) = true
      ∧ versionsViewSet_get_serializer_class "list" = SerializerClass.VersionSerializer
      ∧ versionsViewSet_get_serializer_class "retrieve" = SerializerClass.VersionSerializer
      ∧ projectsViewSetBase_get_serializer_class "destroy" = none
      ∧ (∀ a : String, a ≠ "list" → a ≠ "retrieve" →
          versionsViewSet_get_serializer_class a
            = SerializerClass.VersionUpdateSerializer) := by
  refine ⟨rfl, rfl, rfl, rfl, ?_⟩
  intro a h1 h2
  simp [versionsViewSet_get_serializer_class, h1, h2]

/-- C6 witness: the amended statement at the unrouted action `destroy`. -/
theorem C6_serializer_resolution_totality_witness :
    versionsViewSet_get_serializer_class "destroy"
      = SerializerClass.VersionUpdateSerializer :=
  C6_serializer_resolution_totality.2.2.2.2 "destroy" (by decide) (by decide)

/-- C7: the `superproject` action only ever answers 200 or 404; in
particular a missing relationship (the `first()`-returns-`None` case) and a
failure raised later during serialization both collapse to 404, never to a
server error. -/
theorem C7_superproject_failures_become_404 :
    (∀ (sps : List ProjectRelationship) (serialize : Project → Except PyExn String),
        (projectsViewSetBase_superproject sps serialize).status = HTTP_200_OK
          ∨ (projectsViewSetBase_superproject sps serialize).status = HTTP_404_NOT_FOUND)
      ∧ (∀ serialize : Project → Except PyExn String,
          (projectsViewSetBase_superproject [] serialize).status = HTTP_404_NOT_FOUND)
      ∧ (∀ sps : List ProjectRelationship,
          (projectsViewSetBase_superproject sps
              (fun _ => Except.error (PyExn.generic "db fault"))).status
            = HTTP_404_NOT_FOUND) := by
  refine ⟨?_, ?_, ?_⟩
  · intro sps serialize
    unfold projectsViewSetBase_superproject
    cases superprojects_first_parent sps with
    | error e => right; rfl
    | ok sp =>
        cases h2 : serialize sp with
        | error e => right; simp [h2]
        | ok data => left; simp [h2]
  · intro serialize
    rfl
  · intro sps
    unfold projectsViewSetBase_superproject
    cases superprojects_first_parent sps with
    | error e => rfl
    | ok sp => rfl

/-- C8: the self-user notifications queryset contains only notifications
whose declared target type is `User` and whose target id is the requesting
user's pk; a notification attached to a build is never in it. -/
theorem C8_user_notifications_scoped_to_user :
    ∀ (db : List Notification) (u : Nat) (n : Notification),
      (n ∈ notificationsUserViewSet_get_queryset db u →
          n.attached_to_content_type = ContentKind.user ∧ n.attached_to_id = u)
        ∧ (n.attached_to_content_type = ContentKind.build →
            n ∉ notificationsUserViewSet_get_queryset db u) := by
  intro db u n
  constructor
  · intro hmem
    have h := (List.mem_filter.mp hmem).2
    simp only [Bool.and_eq_true, beq_iff_eq] at h
    exact h
  · intro hbuild hmem
    have h := (List.mem_filter.mp hmem).2
    simp only [Bool.and_eq_true, beq_iff_eq, hbuild] at h
    exact ContentKind.noConfusion h.1

/-- C8 witness: user 1's listing contains the user-attached notification's
attributes and excludes the build-attached one with the same target id. -/
theorem C8_user_notifications_scoped_to_user_witness :
    (demoUserNotification.attached_to_content_type = ContentKind.user
        ∧ demoUserNotification.attached_to_id = 1)
      ∧ demoBuildNotification ∉ notificationsUserViewSet_get_queryset
          [demoUserNotification, demoBuildNotification] 1 :=
  ⟨(C8_user_notifications_scoped_to_user
      [demoUserNotification, demoBuildNotification] 1 demoUserNotification).1
      (by simp [notificationsUserViewSet_get_queryset, demoUserNotification]),
   (C8_user_notifications_scoped_to_user
      [demoUserNotification, demoBuildNotification] 1 demoBuildNotification).2 rfl⟩

/-- C10: the Users viewset and the base Organizations viewset provide no
list or retrieve handlers and carry the empty class queryset, so top-level
list and retrieve requests against them resolve to 404 for every caller and
identifier; and even a hypothetically routed retrieve would still 404
against the empty queryset. They exist only as parents for the nested
notification routes. -/
theorem C10_users_orgs_viewsets_not_found :
    ∀ pk : Nat,
      viewset_dispatch usersViewSet_actions usersViewSet_queryset "list" pk
          = HTTP_404_NOT_FOUND
        ∧ viewset_dispatch usersViewSet_actions usersViewSet_queryset "retrieve" pk
          = HTTP_404_NOT_FOUND
        ∧ viewset_dispatch organizationsViewSetBase_actions
            organizationsViewSetBase_queryset "list" pk = HTTP_404_NOT_FOUND
        ∧ viewset_dispatch organizationsViewSetBase_actions
            organizationsViewSetBase_queryset "retrieve" pk = HTTP_404_NOT_FOUND
        ∧ usersViewSet_queryset = []
        ∧ organizationsViewSetBase_queryset = []
        ∧ viewset_dispatch ["list", "retrieve"] usersViewSet_queryset "retrieve" pk
          = HTTP_404_NOT_FOUND := by
  intro pk
  exact ⟨rfl, rfl, rfl, rfl, rfl, rfl, rfl⟩
